import Mathlib

/-!
Verification of the guided field-collection conversation engine of the
security-incident Slack bot (`socket_app.py`, `incident_agent/schema.py`,
`incident_agent/render.py`, `incident_agent/extract.py`).

The Python code is shallowly embedded: the per-thread conversation dict
becomes the `Conv` structure, the message handler `handle_message_events`
(restricted to the `collecting` status, which is the state all claims are
about) becomes `handleCollecting`, and the two language-model calls are
abstracted by an `Oracle` whose results are post-processed exactly as the
code post-processes them (`.strip()` on success, verbatim fallback on
error).

Python string primitives are modelled over `String.data` (a `List Char`):
`pyStrip` is `str.strip()` (whitespace set modelled as space, tab, newline,
carriage return — the characters that occur in this code base), `pyLower`
is `str.lower()` (ASCII, all strings involved are ASCII), `pySplitOnce`
is one step of `str.split(" ", n)`, and so on.
-/

namespace IncidentBot

/-- Whitespace test used by the model of Python `str.strip()`. -/
def wsChar (c : Char) : Bool :=
  c = ' ' || c = '\t' || c = '\n' || c = '\r'

/-- Left trim on character lists (Python `lstrip()`). -/
def ltrimChars (l : List Char) : List Char :=
  l.dropWhile wsChar

/-- Right trim on character lists (Python `rstrip()`). -/
def rtrimChars (l : List Char) : List Char :=
  (l.reverse.dropWhile wsChar).reverse

/-- Model of Python `str.strip()`. -/
def pyStrip (s : String) : String :=
  ⟨rtrimChars (ltrimChars s.data)⟩

/-- Model of Python `str.lower()` (ASCII). -/
def pyLower (s : String) : String :=
  ⟨s.data.map Char.toLower⟩

/-- Model of Python `str.lstrip(chars)`: drop leading characters from the set. -/
def pyLstripSet (s : String) (cs : List Char) : String :=
  ⟨s.data.dropWhile (fun c => cs.contains c)⟩

/-- Character-list prefix test (needle, haystack). -/
def charsPrefix : List Char → List Char → Bool
  | [], _ => true
  | _ :: _, [] => false
  | a :: as, b :: bs => a = b && charsPrefix as bs

/-- Model of Python `str.startswith(pre)`. -/
def pyStartsWith (s pre : String) : Bool :=
  charsPrefix pre.data s.data

/-- Substring test on character lists (Python `needle in hay`). -/
def charsContains (hay nd : List Char) : Bool :=
  charsPrefix nd hay ||
    match hay with
    | [] => false
    | _ :: t => charsContains t nd

/-- Model of Python `needle in hay` for strings. -/
def pyContains (hay nd : String) : Bool :=
  charsContains hay.data nd.data

/-- Model of Python `s[n:]` (character based). -/
def pyDrop (s : String) (n : Nat) : String :=
  ⟨s.data.drop n⟩

/-- Split a character list at the first space, if any. -/
def splitOnceChars : List Char → Option (List Char × List Char)
  | [] => none
  | c :: t =>
    if c = ' ' then some ([], t)
    else (splitOnceChars t).map (fun p => (c :: p.1, p.2))

/-- One step of Python `str.split(" ", k)`: the part before the first
space and the rest, or `none` when the string has no space. -/
def pySplitOnce (s : String) : Option (String × String) :=
  (splitOnceChars s.data).map (fun p => (⟨p.1⟩, ⟨p.2⟩))

theorem dropWhile_stable (p : Char → Bool) :
    ∀ l : List Char, (l.dropWhile p).dropWhile p = l.dropWhile p := by
  intro l
  induction l with
  | nil => rfl
  | cons a t ih =>
    by_cases h : p a
    · simp [List.dropWhile, h, ih]
    · simp [List.dropWhile, h]

theorem dropWhile_of_prefix_stable (p : Char → Bool) (m m' : List Char)
    (hm : m.dropWhile p = m) (hpre : m' <+: m) : m'.dropWhile p = m' := by
  cases m' with
  | nil => rfl
  | cons a t =>
    obtain ⟨u, hu⟩ := hpre
    subst hu
    have ha : p a = false := by
      by_contra hcon
      have : p a = true := by
        cases hpa : p a
        · exact absurd hpa hcon
        · rfl
      simp [List.dropWhile, this] at hm
      have hle : ((t ++ u).dropWhile p).length ≤ (t ++ u).length :=
        (List.dropWhile_suffix p).length_le
      have hlen := congrArg List.length hm
      simp at hlen
      simp [List.length_append] at hle
      omega
    simp [List.dropWhile, ha]

theorem dropWhile_is_suffix (p : Char → Bool) :
    ∀ l : List Char, l.dropWhile p <:+ l := by
  intro l
  induction l with
  | nil => exact ⟨[], rfl⟩
  | cons a t ih =>
    by_cases h : p a
    · obtain ⟨u, hu⟩ := ih
      exact ⟨a :: u, by simp [List.dropWhile, h, hu]⟩
    · exact ⟨[], by simp [List.dropWhile, h]⟩

theorem rtrim_prefix_of_self (l : List Char) : rtrimChars l <+: l := by
  have h := dropWhile_is_suffix wsChar l.reverse
  have : (l.reverse.dropWhile wsChar).reverse <+: l.reverse.reverse :=
    List.reverse_prefix.mpr (by simpa using h)
  simpa [rtrimChars] using this

theorem ltrim_rtrim_of_ltrimmed (m : List Char) (hm : ltrimChars m = m) :
    ltrimChars (rtrimChars m) = rtrimChars m :=
  dropWhile_of_prefix_stable wsChar m (rtrimChars m) hm (rtrim_prefix_of_self m)

theorem rtrim_idem (m : List Char) : rtrimChars (rtrimChars m) = rtrimChars m := by
  simp [rtrimChars, dropWhile_stable]

/-- Python `strip()` is idempotent. -/
theorem pyStrip_idem (s : String) : pyStrip (pyStrip s) = pyStrip s := by
  unfold pyStrip
  have h1 : ltrimChars (ltrimChars s.data) = ltrimChars s.data :=
    dropWhile_stable wsChar s.data
  have h2 : ltrimChars (rtrimChars (ltrimChars s.data)) = rtrimChars (ltrimChars s.data) :=
    ltrim_rtrim_of_ltrimmed (ltrimChars s.data) h1
  simp [h2, rtrim_idem]

/-- The thirteen collectible fields of `IncidentTemplate` (schema.py). -/
inductive FieldKey where
  | beschrijving_afwijking
  | maatregelen_beheersen_corrigeren
  | aanpassen_consequenties
  | risicoafweging
  | oorzaak_ontstaan
  | gevolgen
  | oorzaak_wegnemen
  | elders_voorgedaan
  | acties_elders
  | doeltreffendheid
  | actualisatie_risico
  | aanpassing_kwaliteitssysteem
  | leerpunten
  deriving DecidableEq

/-- The Python identifier of a field (the key of the `data` dict). -/
def keyStr : FieldKey → String
  | .beschrijving_afwijking => "beschrijving_afwijking"
  | .maatregelen_beheersen_corrigeren => "maatregelen_beheersen_corrigeren"
  | .aanpassen_consequenties => "aanpassen_consequenties"
  | .risicoafweging => "risicoafweging"
  | .oorzaak_ontstaan => "oorzaak_ontstaan"
  | .gevolgen => "gevolgen"
  | .oorzaak_wegnemen => "oorzaak_wegnemen"
  | .elders_voorgedaan => "elders_voorgedaan"
  | .acties_elders => "acties_elders"
  | .doeltreffendheid => "doeltreffendheid"
  | .actualisatie_risico => "actualisatie_risico"
  | .aanpassing_kwaliteitssysteem => "aanpassing_kwaliteitssysteem"
  | .leerpunten => "leerpunten"

/-- Inverse of `keyStr`: which field a `data`-dict key names. -/
def fieldKeyOfString (s : String) : Option FieldKey :=
  if s = "beschrijving_afwijking" then some .beschrijving_afwijking
  else if s = "maatregelen_beheersen_corrigeren" then some .maatregelen_beheersen_corrigeren
  else if s = "aanpassen_consequenties" then some .aanpassen_consequenties
  else if s = "risicoafweging" then some .risicoafweging
  else if s = "oorzaak_ontstaan" then some .oorzaak_ontstaan
  else if s = "gevolgen" then some .gevolgen
  else if s = "oorzaak_wegnemen" then some .oorzaak_wegnemen
  else if s = "elders_voorgedaan" then some .elders_voorgedaan
  else if s = "acties_elders" then some .acties_elders
  else if s = "doeltreffendheid" then some .doeltreffendheid
  else if s = "actualisatie_risico" then some .actualisatie_risico
  else if s = "aanpassing_kwaliteitssysteem" then some .aanpassing_kwaliteitssysteem
  else if s = "leerpunten" then some .leerpunten
  else none

/-- `DUTCH_FIELD_LABELS` from schema.py: ordered key → label pairs
(dict insertion order). -/
def DUTCH_FIELD_LABELS : List (String × String) :=
  [("beschrijving_afwijking", "1. Description of deviation"),
   ("maatregelen_beheersen_corrigeren", "2.1 Measures to control and correct the deviation"),
   ("aanpassen_consequenties", "2.2 Adjust consequences"),
   ("risicoafweging", "2.3 Risk assessment"),
   ("oorzaak_ontstaan", "3.1 Cause of the deviation"),
   ("gevolgen", "3.2 Consequences of the deviation"),
   ("oorzaak_wegnemen", "3.3 Remove cause"),
   ("elders_voorgedaan", "3.4 Could the deviation have occurred elsewhere"),
   ("acties_elders", "3.5 Actions on deviation that occurred elsewhere"),
   ("doeltreffendheid", "4.1 Effectiveness of the measures taken"),
   ("actualisatie_risico", "4.2 Update of risk inventory based on deviation (if applicable)"),
   ("aanpassing_kwaliteitssysteem", "4.3 Adjustment to quality system (if applicable)"),
   ("leerpunten", "5. Lessons learned")]

/-- The fixed question order produced by `IncidentExtractor.extract`
(one question per `DUTCH_FIELD_LABELS` key, in order). -/
def questionsCatalog : List FieldKey :=
  [.beschrijving_afwijking, .maatregelen_beheersen_corrigeren,
   .aanpassen_consequenties, .risicoafweging, .oorzaak_ontstaan, .gevolgen,
   .oorzaak_wegnemen, .elders_voorgedaan, .acties_elders, .doeltreffendheid,
   .actualisatie_risico, .aanpassing_kwaliteitssysteem, .leerpunten]

/-- `_is_accept`: the accept-token test of socket_app.py. -/
def isAccept (s : String) : Bool :=
  let t := pyLower (pyStrip s)
  t = "ja" || t = "ok" || t = "okay" || t = "akkoord" || t = "yes" ||
    t = "y" || t = "accept"

/-- `_is_yes`: the yes-token test of socket_app.py. -/
def isYes (s : String) : Bool :=
  let t := pyLower (pyStrip s)
  t = "ja" || t = "yes" || t = "y"

/-- `_is_no`: the no-token test of socket_app.py. -/
def isNo (s : String) : Bool :=
  let t := pyLower (pyStrip s)
  t = "nee" || t = "no" || t = "n"

/-- The "trivial candidate" test used for the `risicoafweging` pending
proposal (candidate stripped+lowered is empty, `ja` or `yes`). -/
def candTriv (s : String) : Bool :=
  let t := pyLower (pyStrip s)
  t = "" || t = "ja" || t = "yes"

/-- Input mode of the conversation: drafted (`story`) or verbatim
(`literal`). -/
inductive Mode where
  | story
  | literal
  deriving DecidableEq

/-- `_parse_mode_prefix`: optional one-shot `story`/`literal` prefix,
stripped of a following run of spaces/colons. -/
def parseModeTag (text : String) : Option Mode × String :=
  let s := pyStrip text
  let l := pyLower s
  if pyStartsWith l "story" then
    (some .story, pyLstripSet (pyDrop s 5) [' ', ':'])
  else if pyStartsWith l "literal" then
    (some .literal, pyLstripSet (pyDrop s 7) [' ', ':'])
  else
    (none, s)

/-- First token of a label, Python `label.split(" ")[0]`. -/
def firstToken (s : String) : String :=
  match pySplitOnce s with
  | some p => p.1
  | none => s

/-- Python `num.replace(".", "").isdigit()`. -/
def numTokenOk (num : String) : Bool :=
  let digits := num.data.filter (fun c => c ≠ '.')
  !digits.isEmpty && digits.all Char.isDigit

/-- `NUMBER_INDEX` built by `_build_number_index`: numeric label prefix
(e.g. `"2.1"`, `"1."`) → field key string. -/
def NUMBER_INDEX : List (String × String) :=
  DUTCH_FIELD_LABELS.filterMap (fun p =>
    let num := pyStrip (firstToken p.2)
    if numTokenOk num then some (num, p.1) else none)

/-- Association-list lookup by string key (first match, like a dict). -/
def assocFind (l : List (String × String)) (k : String) : Option String :=
  (l.find? (fun p => p.1 = k)).map Prod.snd

/-- `_resolve_field_key`: resolve a user token to a field-key string by
exact key, exact numeric label, label prefix/substring, then key
substring, in that order (first match in `DUTCH_FIELD_LABELS` order). -/
def resolveStr (token : String) : Option String :=
  let t := pyLower (pyStrip token)
  if t = "" then none
  else if DUTCH_FIELD_LABELS.any (fun p => p.1 = t) then some t
  else
    match assocFind NUMBER_INDEX t with
    | some k => some k
    | none =>
      match DUTCH_FIELD_LABELS.find? (fun p =>
          pyStartsWith (pyLower p.2) t || pyContains (pyLower p.2) t) with
      | some p => some p.1
      | none =>
        match DUTCH_FIELD_LABELS.find? (fun p => pyContains (pyLower p.1) t) with
        | some p => some p.1
        | none => none

/-- Field resolution as used by the `edit` command: the resolved
data-dict key, converted to the field it denotes. -/
def resolveFieldKey (token : String) : Option FieldKey :=
  (resolveStr token).bind fieldKeyOfString

/-- `IncidentTemplate` (schema.py): thirteen optional string fields.
This is also the model of the conversation's `data` dict, which is the
`model_dump()` of this template (all keys present, unset = `None`). -/
structure IncidentTemplate where
  beschrijving_afwijking : Option String := none
  maatregelen_beheersen_corrigeren : Option String := none
  aanpassen_consequenties : Option String := none
  risicoafweging : Option String := none
  oorzaak_ontstaan : Option String := none
  gevolgen : Option String := none
  oorzaak_wegnemen : Option String := none
  elders_voorgedaan : Option String := none
  acties_elders : Option String := none
  doeltreffendheid : Option String := none
  actualisatie_risico : Option String := none
  aanpassing_kwaliteitssysteem : Option String := none
  leerpunten : Option String := none
  deriving DecidableEq

/-- All-unset template, as produced by `IncidentExtractor.extract`. -/
def emptyTemplate : IncidentTemplate := {}

/-- `data[key]` for a field key. -/
def dataGet (t : IncidentTemplate) : FieldKey → Option String
  | .beschrijving_afwijking => t.beschrijving_afwijking
  | .maatregelen_beheersen_corrigeren => t.maatregelen_beheersen_corrigeren
  | .aanpassen_consequenties => t.aanpassen_consequenties
  | .risicoafweging => t.risicoafweging
  | .oorzaak_ontstaan => t.oorzaak_ontstaan
  | .gevolgen => t.gevolgen
  | .oorzaak_wegnemen => t.oorzaak_wegnemen
  | .elders_voorgedaan => t.elders_voorgedaan
  | .acties_elders => t.acties_elders
  | .doeltreffendheid => t.doeltreffendheid
  | .actualisatie_risico => t.actualisatie_risico
  | .aanpassing_kwaliteitssysteem => t.aanpassing_kwaliteitssysteem
  | .leerpunten => t.leerpunten

/-- `data[key] = value` for a field key. -/
def dataSet (t : IncidentTemplate) : FieldKey → String → IncidentTemplate
  | .beschrijving_afwijking, v => { t with beschrijving_afwijking := some v }
  | .maatregelen_beheersen_corrigeren, v => { t with maatregelen_beheersen_corrigeren := some v }
  | .aanpassen_consequenties, v => { t with aanpassen_consequenties := some v }
  | .risicoafweging, v => { t with risicoafweging := some v }
  | .oorzaak_ontstaan, v => { t with oorzaak_ontstaan := some v }
  | .gevolgen, v => { t with gevolgen := some v }
  | .oorzaak_wegnemen, v => { t with oorzaak_wegnemen := some v }
  | .elders_voorgedaan, v => { t with elders_voorgedaan := some v }
  | .acties_elders, v => { t with acties_elders := some v }
  | .doeltreffendheid, v => { t with doeltreffendheid := some v }
  | .actualisatie_risico, v => { t with actualisatie_risico := some v }
  | .aanpassing_kwaliteitssysteem, v => { t with aanpassing_kwaliteitssysteem := some v }
  | .leerpunten, v => { t with leerpunten := some v }

/-- `isinstance(val, str) and val.strip()`: a field is answered iff its
value is a string with non-blank content. -/
def answeredAt (t : IncidentTemplate) (k : FieldKey) : Bool :=
  match dataGet t k with
  | some s => pyStrip s ≠ ""
  | none => false

/-- `d.get(key)` on the `model_dump()` of a template: `none` when the
string is not one of the thirteen field names. -/
def dumpLookup (t : IncidentTemplate) (key : String) : Option (Option String) :=
  (fieldKeyOfString key).map (dataGet t)

/-- `val(key)` inside `render_markdown`: the trimmed value, or `""` when
the value is absent or not a string. -/
def rval (t : IncidentTemplate) (key : String) : String :=
  match dumpLookup t key with
  | some (some s) => pyStrip s
  | _ => ""

/-- The line list built by `render_markdown` (render.py), in order. -/
def renderLines (t : IncidentTemplate) : List String :=
  ["# 1. Description of deviation",
   rval t "beschrijving_afwijking",
   "",
   "# 2. Measures",
   "",
   "## 2.1 Measures to control and correct the deviation",
   rval t "maatregelen_beheersen_corrigeren",
   "",
   "## 2.2 Adjust consequences",
   rval t "aanpassen_consequenties",
   "",
   "## 2.3 Risk assessment If the deviation is of such a nature, a risk assessment must be made. Contact Mark, holder of the risk inventory",
   rval t "risicoafweging",
   "",
   "# 3. Analysis and removing causes",
   "",
   "## 3.1 Cause of the deviation",
   rval t "oorzaak_ontstaan",
   "",
   "## 3.2 Consequences of the deviation",
   rval t "gevolgen",
   "",
   "## 3.3 Remove cause",
   rval t "oorzaak_wegnemen",
   "",
   "## 3.4 Could the deviation have occurred elsewhere",
   rval t "elders_voorgedaan",
   "",
   "## 3.5 Actions on deviation that occurred elsewhere",
   rval t "acties_elders",
   "",
   "# 4. Assessment of measures taken This chapter will be filled once the JIRA actions are completed.",
   "",
   "## 4.1 Effectiveness of the measures taken",
   rval t "doeltreffendheid",
   "",
   "## 4.2 Update of risk inventory based on deviation (if applicable)",
   rval t "actualisatie_risico",
   "",
   "## 4.3 Adjustment to quality system (if applicable)",
   rval t "aanpassing_kwaliteitssysteem",
   "",
   "# 5. Lessons learned",
   rval t "leerpunten",
   "",
   "# 6. Relation to ISO 27001 Annex A controls",
   rval t "relatie_iso27001_annex_a"]

/-- `render_markdown`: the joined document. -/
def render_markdown (t : IncidentTemplate) : String :=
  String.intercalate "\n" (renderLines t)

/-- Index of a field's fixed heading line in `renderLines`; the field's
body is the next line. -/
def headingIndexOf : FieldKey → Nat
  | .beschrijving_afwijking => 0
  | .maatregelen_beheersen_corrigeren => 5
  | .aanpassen_consequenties => 8
  | .risicoafweging => 11
  | .oorzaak_ontstaan => 16
  | .gevolgen => 19
  | .oorzaak_wegnemen => 22
  | .elders_voorgedaan => 25
  | .acties_elders => 28
  | .doeltreffendheid => 33
  | .actualisatie_risico => 36
  | .aanpassing_kwaliteitssysteem => 39
  | .leerpunten => 42

/-- The fixed heading text of a field in the rendered document. -/
def headingOf : FieldKey → String
  | .beschrijving_afwijking => "# 1. Description of deviation"
  | .maatregelen_beheersen_corrigeren => "## 2.1 Measures to control and correct the deviation"
  | .aanpassen_consequenties => "## 2.2 Adjust consequences"
  | .risicoafweging => "## 2.3 Risk assessment If the deviation is of such a nature, a risk assessment must be made. Contact Mark, holder of the risk inventory"
  | .oorzaak_ontstaan => "## 3.1 Cause of the deviation"
  | .gevolgen => "## 3.2 Consequences of the deviation"
  | .oorzaak_wegnemen => "## 3.3 Remove cause"
  | .elders_voorgedaan => "## 3.4 Could the deviation have occurred elsewhere"
  | .acties_elders => "## 3.5 Actions on deviation that occurred elsewhere"
  | .doeltreffendheid => "## 4.1 Effectiveness of the measures taken"
  | .actualisatie_risico => "## 4.2 Update of risk inventory based on deviation (if applicable)"
  | .aanpassing_kwaliteitssysteem => "## 4.3 Adjustment to quality system (if applicable)"
  | .leerpunten => "# 5. Lessons learned"

/-- Role of a turn in a pending proposal's history. -/
inductive Role where
  | user
  | assistant
  deriving DecidableEq

/-- One `{role, content}` turn of a pending proposal's history. -/
structure ChatMsg where
  role : Role
  content : String
  deriving DecidableEq

/-- The `pending` structure: field, candidate draft, revision history.
The `risicoafweging` yes-branch creates a pending without a history key;
it is read back with `pending.get("history") or []`, i.e. as `[]`. -/
structure Pending where
  field : FieldKey
  candidate : String
  history : List ChatMsg
  deriving DecidableEq

/-- The two risky actions guarded by `confirm_action`. -/
inductive RiskyAct where
  | finalize
  | jira
  deriving DecidableEq

/-- The thread-level commands of the collecting state, in the order the
handler tests for them. -/
inductive Cmd where
  | help
  | finalizeCmd
  | jiraCmd
  | statusCmd
  | fieldsCmd
  | showCmd
  | continueCmd
  | modeCmd
  | showmode
  | edit
  | cancel
  deriving DecidableEq

/-- The observable events of one handler invocation: the messages the
handler posts, abstracted to tags carrying the payloads the claims talk
about, plus `attributeErrorNextStep` — the `AttributeError` that escapes
the handler when it evaluates `MSG.next_step_text(conv)`, a function
`incident_agent/messages.py` does not define (socket_app.py:1261 and
:1268); nothing is posted on that event and the invocation aborts. -/
inductive Msg where
  | helpText
  | warningIncomplete (act : RiskyAct)
  | finalDocument (md : String)
  | jiraAttempted
  | statusText
  | nextStepText
  | fieldsList
  | currentMarkdown (md : String)
  | inputModeSet (m : Mode)
  | usageMode
  | currentInputMode (m : Mode)
  | unknownField (token : String)
  | proposalEdit (k : FieldKey) (v : String)
  | changedField (k : FieldKey)
  | usageEdit
  | canceled
  | needRiskDetail
  | nextQuestion (i : Nat)
  | allAnswered
  | proposalMsg (k : FieldKey) (v : String)
  | riskFollowup
  | riskYesNoPrompt
  | noOpenQuestionsWithJira
  | followupSteps
  | allAnsweredThanks
  | attributeErrorNextStep
  deriving DecidableEq

/-- One conversation's state dict (collecting status) from socket_app.py.
`override_incomplete` is absent-or-set in the dict; modelled as a Bool
(`conv.pop("override_incomplete", False)` reads and removes it). -/
structure Conv where
  data : IncidentTemplate
  questions : List FieldKey
  index : Nat
  mode : Mode
  pending : Option Pending
  confirmAction : Option RiskyAct
  overrideIncomplete : Bool
  autofillQueue : List FieldKey
  deriving DecidableEq

/-- The conversation created by `start` (`_start_regular_flow`): empty
data, the fixed questions, cursor 0, story mode, nothing pending. -/
def startConv : Conv :=
  { data := emptyTemplate
    questions := questionsCatalog
    index := 0
    mode := .story
    pending := none
    confirmAction := none
    overrideIncomplete := false
    autofillQueue := [] }

/-- The external drafting model. `none` models the call raising an
exception (network/API error); `some c` models a successful completion
with content `c`. -/
structure Oracle where
  rewrite : String → FieldKey → Option String
  revise : FieldKey → List ChatMsg → String → Option String

/-- `_rewrite_with_model`: blank input → `""`; success → stripped model
output; exception → the raw input unchanged. -/
def pyRewrite (o : Oracle) (raw : String) (k : FieldKey) : String :=
  if pyStrip raw = "" then ""
  else
    match o.rewrite raw k with
    | some c => pyStrip c
    | none => raw

/-- Last assistant turn of a history (used by `_revise_with_history`
when the instruction is blank). -/
def lastAssistant (hist : List ChatMsg) : String :=
  match hist.reverse.find? (fun m => m.role = Role.assistant) with
  | some m => pyStrip m.content
  | none => ""

/-- `_revise_with_history`: blank instruction → last assistant draft;
success → stripped model output; exception → the instruction itself. -/
def pyRevise (o : Oracle) (k : FieldKey) (hist : List ChatMsg) (instr : String) : String :=
  if pyStrip instr = "" then lastAssistant hist
  else
    match o.revise k hist instr with
    | some c => pyStrip c
    | none => instr

/-- `str(value)` on a maybe-unset data value (Python prints `None`). -/
def pyStr : Option String → String
  | some s => s
  | none => "None"

/-- Helper of `_compute_next_index`: how many leading questions of the
list are already answered. -/
def takeAnswered (t : IncidentTemplate) : List FieldKey → Nat
  | [] => 0
  | k :: rest => if answeredAt t k then takeAnswered t rest + 1 else 0

/-- `_compute_next_index`: first index at or after `start` whose question
is unanswered (or the list length when all the rest are answered). -/
def computeNextIndex (qs : List FieldKey) (t : IncidentTemplate) (start : Nat) : Nat :=
  start + takeAnswered t (qs.drop start)

/-- `_set_pending_with_history`: install a pending proposal seeded with
the user text and the draft. -/
def setPendingWithHistory (conv : Conv) (field : FieldKey) (userText draftValue : String) : Conv :=
  { conv with
      pending := some
        { field := field
          candidate := draftValue
          history := [⟨.user, userText⟩, ⟨.assistant, draftValue⟩] } }

/-- `_propose_confirmation_for_field`: re-propose a field's current value
(re-drafted in story mode when non-blank), installing it as pending. -/
def proposeConfirmationForField (o : Oracle) (conv : Conv) (field : FieldKey) :
    Conv × List Msg :=
  let current := dataGet conv.data field
  let value :=
    match current with
    | some s => if pyStrip s ≠ "" ∧ conv.mode = Mode.story then pyRewrite o s field else s
    | none => "None"
  (setPendingWithHistory conv field (pyStr current) value,
   [Msg.proposalMsg field value])

/-- The command dispatch of `handle_message_events` in the collecting
state: the thread-level command checks, tested on the lowercased
stripped text in exactly the order the handler performs them. -/
def whichCommand (text : String) : Option Cmd :=
  if text = "help" ∨ text = "/help" then some .help
  else if text = "finaliseer" ∨ text = "finaliseren" ∨ text = "finalize" ∨
      text = "finaliseren aub" ∨ text = "finalise" then some .finalizeCmd
  else if text = "jira" ∨ text = "/jira" then some .jiraCmd
  else if text = "status" ∨ text = "/status" then some .statusCmd
  else if text = "fields" ∨ text = "/fields" ∨ text = "velden" ∨
      text = "/velden" then some .fieldsCmd
  else if text = "show" ∨ text = "/show" ∨ text = "toon" ∨ text = "/toon" ∨
      text = "preview" ∨ text = "/preview" then some .showCmd
  else if text = "continue" ∨ text = "/continue" ∨ text = "verder" ∨
      text = "/verder" then some .continueCmd
  else if pyStartsWith text "mode " ∨ pyStartsWith text "/mode " then some .modeCmd
  else if text = "showmode" ∨ text = "/showmode" then some .showmode
  else if pyStartsWith text "edit " ∨ pyStartsWith text "/edit " ∨
      pyStartsWith text "wijzig " then some .edit
  else if text = "cancel" ∨ text = "/cancel" then some .cancel
  else none

/-- The `finalize` branch: warn (setting `confirm_action`) when a
proposal is pending or the cursor has not passed the last question and
no one-shot override is present; otherwise render the document.
`conv.pop("override_incomplete", False)` is only evaluated when
incomplete, so a leftover override survives a complete finalize. -/
def finalizeRun (conv : Conv) : Option Conv × List Msg :=
  let incomplete := conv.pending.isSome ∨ conv.index < conv.questions.length
  if incomplete ∧ ¬conv.overrideIncomplete then
    (some { conv with confirmAction := some .finalize }, [Msg.warningIncomplete .finalize])
  else
    let conv1 := if incomplete then { conv with overrideIncomplete := false } else conv
    (some conv1, [Msg.finalDocument (render_markdown conv1.data)])

/-- The `jira` branch: same incompleteness gate, then the Jira
create/update call (external, does not mutate the conversation). -/
def jiraRun (conv : Conv) : Option Conv × List Msg :=
  let incomplete := conv.pending.isSome ∨ conv.index < conv.questions.length
  if incomplete ∧ ¬conv.overrideIncomplete then
    (some { conv with confirmAction := some .jira }, [Msg.warningIncomplete .jira])
  else
    let conv1 := if incomplete then { conv with overrideIncomplete := false } else conv
    (some conv1, [Msg.jiraAttempted])

/-- The `mode <choice>` branch: `text.split(" ", 1)[1]`, stripped, must
be `literal` or `story`; otherwise usage help. -/
def modeRun (conv : Conv) (text : String) : Option Conv × List Msg :=
  match pySplitOnce text with
  | none => (some conv, [Msg.usageMode])
  | some p =>
    let choice := pyLower (pyStrip p.2)
    if choice = "literal" then
      (some { conv with mode := .literal }, [Msg.inputModeSet .literal, Msg.nextStepText])
    else if choice = "story" then
      (some { conv with mode := .story }, [Msg.inputModeSet .story, Msg.nextStepText])
    else (some conv, [Msg.usageMode])

/-- The `edit <field> <value>` branch: split the raw text in three,
resolve the field token, parse an optional mode prefix on the value;
story mode drafts and installs a pending proposal, literal mode writes
the record directly. Malformed input yields usage help. -/
def editRun (o : Oracle) (conv : Conv) (textRaw : String) : Option Conv × List Msg :=
  match pySplitOnce textRaw with
  | none => (some conv, [Msg.usageEdit])
  | some p1 =>
    match pySplitOnce p1.2 with
    | none => (some conv, [Msg.usageEdit])
    | some p2 =>
      let fieldToken := p2.1
      let newValue := p2.2
      match resolveFieldKey fieldToken with
      | none => (some conv, [Msg.unknownField fieldToken])
      | some key =>
        let parsed := parseModeTag newValue
        let nvBody := parsed.2
        let modeToUse := parsed.1.getD conv.mode
        if modeToUse = Mode.story then
          let value := pyRewrite o nvBody key
          (some (setPendingWithHistory conv key nvBody value), [Msg.proposalEdit key value])
        else
          (some { conv with data := dataSet conv.data key nvBody }, [Msg.changedField key])

/-- Dispatch of a matched thread-level command. -/
def runCommand (o : Oracle) (conv : Conv) (textRaw text : String) : Cmd → Option Conv × List Msg
  | .help => (some conv, [Msg.helpText])
  | .finalizeCmd => finalizeRun conv
  | .jiraCmd => jiraRun conv
  | .statusCmd => (some conv, [Msg.statusText, Msg.nextStepText])
  | .fieldsCmd => (some conv, [Msg.fieldsList, Msg.nextStepText])
  | .showCmd => (some conv, [Msg.currentMarkdown (render_markdown conv.data), Msg.nextStepText])
  | .continueCmd => (some conv, [Msg.nextStepText])
  | .modeCmd => modeRun conv text
  | .showmode => (some conv, [Msg.currentInputMode conv.mode])
  | .edit => editRun o conv textRaw
  | .cancel => (none, [Msg.canceled])

/-- Commit a pending candidate (or a `new … literal` value) into the
record and advance: clear `pending`, drop the field from the autofill
queue, re-propose the queue head if any remains, otherwise recompute the
cursor from its current value via `_compute_next_index`. -/
def commitAndAdvance (o : Oracle) (conv : Conv) (field : FieldKey) (value : String) :
    Option Conv × List Msg :=
  let conv1 := { conv with
      data := dataSet conv.data field value
      pending := none
      autofillQueue := conv.autofillQueue.filter (fun f => f ≠ field) }
  match conv1.autofillQueue with
  | f :: _ =>
    let r := proposeConfirmationForField o conv1 f
    (some r.1, r.2)
  | [] =>
    let ni := computeNextIndex conv1.questions conv1.data conv.index
    let conv2 := { conv1 with index := ni }
    if ni < conv2.questions.length then (some conv2, [Msg.nextQuestion ni])
    else (some conv2, [Msg.allAnswered])

/-- The pending-proposal flow of `handle_message_events`: the
`risicoafweging` accept guard, acceptance, the `risicoafweging`
follow-up-detail special case, `new <text>`, and the free-text revision
fallback, in the order the handler checks them. -/
def handlePending (o : Oracle) (conv : Conv) (textRaw text : String) (p : Pending) :
    Option Conv × List Msg :=
  if p.field = FieldKey.risicoafweging ∧ candTriv p.candidate ∧ isAccept textRaw then
    (some conv, [Msg.needRiskDetail])
  else if isAccept textRaw then
    commitAndAdvance o conv p.field p.candidate
  else if p.field = FieldKey.risicoafweging ∧ candTriv p.candidate then
    let parsed := parseModeTag textRaw
    let modeToUse := parsed.1.getD conv.mode
    let detailValue :=
      if modeToUse = Mode.story then pyRewrite o parsed.2 p.field else parsed.2
    let combined := "yes: " ++ detailValue
    (some (setPendingWithHistory conv p.field textRaw combined),
     [Msg.proposalMsg p.field combined])
  else
    let lower := pyLower (pyStrip text)
    if pyStartsWith lower "new " ∨ lower = "new" then
      let newBody := ((pySplitOnce textRaw).map Prod.snd).getD ""
      let parsed := parseModeTag newBody
      let modeToUse := parsed.1.getD conv.mode
      if modeToUse = Mode.literal then
        commitAndAdvance o conv p.field parsed.2
      else
        let value :=
          if modeToUse = Mode.story then pyRewrite o parsed.2 p.field else parsed.2
        (some (setPendingWithHistory conv p.field parsed.2 value),
         [Msg.proposalMsg p.field value])
    else
      let hist1 := p.history ++ [⟨Role.user, textRaw⟩]
      let revised := pyRevise o p.field hist1 textRaw
      let hist2 := hist1 ++ [⟨Role.assistant, revised⟩]
      (some { conv with pending := some ⟨p.field, revised, hist2⟩ },
       [Msg.proposalMsg p.field revised])

/-- The answer flow of `handle_message_events`: the current question is
answered, with the yes/no-gated `risicoafweging` special case; for other
fields story mode drafts a proposal and literal mode commits verbatim and
advances the cursor by one. Past the last question, the handler reminds
the user to finalize/export. -/
def handleAnswer (o : Oracle) (conv : Conv) (textRaw : String) : Option Conv × List Msg :=
  match conv.questions[conv.index]? with
  | none => (some conv, [Msg.noOpenQuestionsWithJira, Msg.followupSteps])
  | some k =>
    let parsed := parseModeTag textRaw
    let body := parsed.2
    let modeToUse := parsed.1.getD conv.mode
    if k = FieldKey.risicoafweging then
      let yn := pyLower (pyStrip body)
      if isYes yn then
        (some { conv with
            data := dataSet conv.data k "yes"
            pending := some ⟨k, "yes", []⟩ },
         [Msg.riskFollowup])
      else if isNo yn then
        let d1 := dataSet conv.data k "no"
        let ni := computeNextIndex conv.questions d1 (conv.index + 1)
        let conv2 := { conv with data := d1, index := ni }
        if ni < conv.questions.length then (some conv2, [Msg.nextQuestion ni])
        else (some conv2, [Msg.allAnsweredThanks, Msg.followupSteps])
      else (some conv, [Msg.riskYesNoPrompt])
    else
      if modeToUse = Mode.story then
        let value := pyRewrite o body k
        (some (setPendingWithHistory conv k body value), [Msg.proposalMsg k value])
      else
        let conv2 := { conv with data := dataSet conv.data k body, index := conv.index + 1 }
        if conv2.index < conv.questions.length then
          (some conv2, [Msg.nextQuestion conv2.index])
        else (some conv2, [Msg.noOpenQuestionsWithJira, Msg.followupSteps])

/-- Map a confirmed risky action to the command the handler re-executes
(`text = confirm_action` followed by the normal command dispatch). -/
def cmdOfAct : RiskyAct → Cmd
  | .finalize => .finalizeCmd
  | .jira => .jiraCmd

/-- `handle_message_events` restricted to a conversation in the
`collecting` status: the risky-action confirmation gate, then the
thread-level commands, then the pending-proposal flow, then answering
the current question. The result is the new conversation (`none` when
`cancel` removed it) and the observable events. In the confirmation
gate, the decline arm and the catch-all arm both call
`MSG.next_step_text(conv)`, which raises `AttributeError` because
`messages.py` defines no `next_step_text`: the decline arm has already
cleared `confirm_action` when the argument is evaluated, the catch-all
arm has mutated nothing, and in both arms no message is posted and the
exception escapes the handler (`attributeErrorNextStep`). -/
def handleCollecting (o : Oracle) (conv : Conv) (input : String) : Option Conv × List Msg :=
  let textRaw := pyStrip input
  let text := pyLower textRaw
  match conv.confirmAction with
  | some act =>
    if isAccept textRaw then
      runCommand o { conv with confirmAction := none, overrideIncomplete := true }
        textRaw text (cmdOfAct act)
    else if isNo textRaw then
      (some { conv with confirmAction := none }, [Msg.attributeErrorNextStep])
    else
      (some conv, [Msg.attributeErrorNextStep])
  | none =>
    match whichCommand text with
    | some c => runCommand o conv textRaw text c
    | none =>
      match conv.pending with
      | some p => handlePending o conv textRaw text p
      | none => handleAnswer o conv textRaw

/-- Run a list of messages through the handler, stopping if the
conversation is cancelled. -/
def runMsgs (o : Oracle) : Conv → List String → Option Conv
  | conv, [] => some conv
  | conv, m :: rest =>
    match (handleCollecting o conv m).1 with
    | some conv1 => runMsgs o conv1 rest
    | none => none

/-- Echo oracle used for concrete executions: the model answers every
draft request with the raw text and every revision with the latest
instruction. -/
def echoOracle : Oracle :=
  { rewrite := fun s _ => some s
    revise := fun _ _ instr => some instr }

/-- Session `state` values of the per-user session store. -/
inductive SessState where
  | IDLE
  | WAITING_FOR_INCIDENT
  | ACTIVE
  deriving DecidableEq

/-- The per-user session dict of socket_app.py: exactly the five keys of
the documented session schema (`user_id`, `state`, `linked_issue_key`,
`pending_incident_keys`, `dm_channel`). -/
structure Session where
  userId : String
  state : SessState
  linkedIssueKey : Option String
  pendingIncidentKeys : List String
  dmChannel : Option String
  deriving DecidableEq

/-- The process-wide `SESSIONS` map, keyed by user id. -/
abbrev SessionStore := List (String × Session)

/-- `SESSIONS.get(user_id)`. -/
def lookupSession (st : SessionStore) (u : String) : Option Session :=
  (st.find? (fun p => p.1 = u)).map Prod.snd

/-- The fresh session `_get_or_create_session` builds on a first
interaction. -/
def freshSession (u : String) : Session :=
  { userId := u
    state := .IDLE
    linkedIssueKey := none
    pendingIncidentKeys := []
    dmChannel := none }

/-- `_get_or_create_session`: return the stored session when present,
otherwise create and store a fresh `IDLE` session. -/
def getOrCreateSession (st : SessionStore) (u : String) : Session × SessionStore :=
  match lookupSession st u with
  | some s => (s, st)
  | none => (freshSession u, (u, freshSession u) :: st)

/-- Spec-level description of the sequencer's result (§8 of the spec,
used by the amended C1): `i` is the first position at or after `s` whose
question is unanswered, and it never passes an unanswered question. -/
def IsFirstUnansweredFrom (qs : List FieldKey) (t : IncidentTemplate) (s i : Nat) : Prop :=
  s ≤ i ∧
  (∀ j, s ≤ j → j < i → ∃ k, qs[j]? = some k ∧ answeredAt t k = true) ∧
  (∀ k, qs[i]? = some k → answeredAt t k = false)

theorem takeAnswered_mem (t : IncidentTemplate) :
    ∀ (l : List FieldKey) (j : Nat), j < takeAnswered t l →
      ∃ k, l[j]? = some k ∧ answeredAt t k = true := by
  intro l
  induction l with
  | nil => intro j h; simp [takeAnswered] at h
  | cons a rest ih =>
    intro j h
    by_cases ha : answeredAt t a
    · cases j with
      | zero => exact ⟨a, by simp, ha⟩
      | succ j' =>
        simp [takeAnswered, ha] at h
        have := ih j' (by omega)
        simpa using this
    · simp [takeAnswered, ha] at h

theorem takeAnswered_stop (t : IncidentTemplate) :
    ∀ (l : List FieldKey) (k : FieldKey), l[takeAnswered t l]? = some k →
      answeredAt t k = false := by
  intro l
  induction l with
  | nil => intro k h; simp at h
  | cons a rest ih =>
    intro k h
    by_cases ha : answeredAt t a
    · simp [takeAnswered, ha] at h
      exact ih k h
    · simp [takeAnswered, ha] at h
      subst h
      simpa using ha

/-- `_compute_next_index` computes exactly the first unanswered question
index at or after its start position. -/
theorem computeNextIndex_spec (qs : List FieldKey) (t : IncidentTemplate) (s : Nat) :
    IsFirstUnansweredFrom qs t s (computeNextIndex qs t s) := by
  refine ⟨Nat.le_add_right s _, ?_, ?_⟩
  · intro j hsj hji
    have hj : j - s < takeAnswered t (qs.drop s) := by
      unfold computeNextIndex at hji
      omega
    obtain ⟨k, hk, hans⟩ := takeAnswered_mem t (qs.drop s) (j - s) hj
    refine ⟨k, ?_, hans⟩
    rw [List.getElem?_drop] at hk
    have : s + (j - s) = j := by omega
    rwa [this] at hk
  · intro k hk
    apply takeAnswered_stop t (qs.drop s)
    rw [List.getElem?_drop]
    exact hk

/-- C10: for every `IncidentTemplate`, the rendered markdown consists of
the same 47 lines with the fixed numbered headings at fixed positions
regardless of the record's contents, and the body line under the final
heading `# 6. Relation to ISO 27001 Annex A controls` is always empty,
because `IncidentTemplate` defines no `relatie_iso27001_annex_a` field
(`fieldKeyOfString` rejects it) and that key is also absent from
`DUTCH_FIELD_LABELS`, so no question or edit can ever fill it. -/
theorem c10_fixed_headings (t : IncidentTemplate) :
    (renderLines t).length = 47 ∧
    (renderLines t).getD 0 "" = "# 1. Description of deviation" ∧
    (renderLines t).getD 3 "" = "# 2. Measures" ∧
    (renderLines t).getD 5 "" = "## 2.1 Measures to control and correct the deviation" ∧
    (renderLines t).getD 8 "" = "## 2.2 Adjust consequences" ∧
    (renderLines t).getD 11 "" = "## 2.3 Risk assessment If the deviation is of such a nature, a risk assessment must be made. Contact Mark, holder of the risk inventory" ∧
    (renderLines t).getD 14 "" = "# 3. Analysis and removing causes" ∧
    (renderLines t).getD 16 "" = "## 3.1 Cause of the deviation" ∧
    (renderLines t).getD 19 "" = "## 3.2 Consequences of the deviation" ∧
    (renderLines t).getD 22 "" = "## 3.3 Remove cause" ∧
    (renderLines t).getD 25 "" = "## 3.4 Could the deviation have occurred elsewhere" ∧
    (renderLines t).getD 28 "" = "## 3.5 Actions on deviation that occurred elsewhere" ∧
    (renderLines t).getD 31 "" = "# 4. Assessment of measures taken This chapter will be filled once the JIRA actions are completed." ∧
    (renderLines t).getD 33 "" = "## 4.1 Effectiveness of the measures taken" ∧
    (renderLines t).getD 36 "" = "## 4.2 Update of risk inventory based on deviation (if applicable)" ∧
    (renderLines t).getD 39 "" = "## 4.3 Adjustment to quality system (if applicable)" ∧
    (renderLines t).getD 42 "" = "# 5. Lessons learned" ∧
    (renderLines t).getD 45 "" = "# 6. Relation to ISO 27001 Annex A controls" ∧
    (renderLines t).getD 46 "" = "" ∧
    fieldKeyOfString "relatie_iso27001_annex_a" = none ∧
    DUTCH_FIELD_LABELS.find? (fun p => p.1 = "relatie_iso27001_annex_a") = none := by
  refine ⟨rfl, rfl, rfl, rfl, rfl, rfl, rfl, rfl, rfl, rfl, rfl, rfl, rfl, rfl,
    rfl, rfl, rfl, rfl, ?_, by decide, by decide⟩
  show rval t "relatie_iso27001_annex_a" = ""
  rfl

/-- Witness for C10 at a concrete record. -/
theorem c10_fixed_headings_witness :
    (renderLines (dataSet emptyTemplate FieldKey.leerpunten "done")).getD 45 "" =
      "# 6. Relation to ISO 27001 Annex A controls" ∧
    (renderLines (dataSet emptyTemplate FieldKey.leerpunten "done")).getD 46 "" = "" := by
  have h := c10_fixed_headings (dataSet emptyTemplate FieldKey.leerpunten "done")
  exact ⟨h.2.2.2.2.2.2.2.2.2.2.2.2.2.2.2.2.2.1, h.2.2.2.2.2.2.2.2.2.2.2.2.2.2.2.2.2.2.1⟩

/-- C9 counterexample: the claim "rendering reproduces every committed
value verbatim" fails. Answering the first question with
`literal \tx` (a one-shot literal prefix followed by a tab) commits the
value `"\tx"` — `lstrip(" :")` removes spaces and colons but not the
tab — yet `render_markdown` strips each value, so the body line under
the field's heading is `"x"`, not the committed value. -/
theorem c9_counterexample :
    dataGet ((handleCollecting echoOracle startConv "literal \tx").1.getD startConv).data
        FieldKey.beschrijving_afwijking = some "\tx" ∧
    (renderLines ((handleCollecting echoOracle startConv "literal \tx").1.getD
        startConv).data).getD 1 "" = "x" ∧
    ("x" : String) ≠ "\tx" := by
  refine ⟨by decide, by decide, by decide⟩

/-- C9 (amended): rendering the record reproduces a committed value
verbatim as the body line directly under the field's fixed heading
whenever the value is its own `strip()` (true of every value entered
without whitespace quirks); in general the rendered body is the
committed value stripped of leading/trailing whitespace. -/
theorem c9_round_trip (t : IncidentTemplate) (k : FieldKey) (v : String)
    (hv : pyStrip v = v) :
    (renderLines (dataSet t k v)).getD (headingIndexOf k) "" = headingOf k ∧
    (renderLines (dataSet t k v)).getD (headingIndexOf k + 1) "" = v := by
  cases k <;> exact ⟨rfl, hv⟩

/-- Witness for C9 (amended) at a concrete record and value. -/
theorem c9_round_trip_witness :
    (renderLines (dataSet emptyTemplate FieldKey.gevolgen "data was lost")).getD 19 "" =
      "## 3.2 Consequences of the deviation" ∧
    (renderLines (dataSet emptyTemplate FieldKey.gevolgen "data was lost")).getD 20 "" =
      "data was lost" :=
  c9_round_trip emptyTemplate FieldKey.gevolgen "data was lost" (by decide)

/-- C8 counterexample: the claim that `get_or_create` replaces a session
older than the maximum age with a fresh `waiting` session fails — the
stored session dict has no creation timestamp at all (its five keys are
`user_id`, `state`, `linked_issue_key`, `pending_incident_keys`,
`dm_channel`), `_get_or_create_session` consults no clock and returns any
existing session unchanged, and a first-interaction session is created in
the `IDLE` state, not `WAITING_FOR_INCIDENT`. -/
theorem c8_counterexample :
    getOrCreateSession [("u", ⟨"u", SessState.ACTIVE, some "ISO-1", [], none⟩)] "u" =
      (⟨"u", SessState.ACTIVE, some "ISO-1", [], none⟩,
        [("u", ⟨"u", SessState.ACTIVE, some "ISO-1", [], none⟩)]) ∧
    (getOrCreateSession [] "u").1.state = SessState.IDLE ∧
    SessState.IDLE ≠ SessState.WAITING_FOR_INCIDENT := by
  refine ⟨by decide, by decide, by decide⟩

/-- C8 (amended): `get_or_create` returns the stored session unchanged
whenever one exists — with no staleness check, since sessions carry no
creation timestamp — and on a first interaction creates, stores and
returns a fresh session in the `IDLE` state. -/
theorem c8_get_or_create (st : SessionStore) (u : String) :
    (∀ s, lookupSession st u = some s → getOrCreateSession st u = (s, st)) ∧
    (lookupSession st u = none →
      getOrCreateSession st u = (freshSession u, (u, freshSession u) :: st) ∧
      (freshSession u).state = SessState.IDLE) := by
  constructor
  · intro s hs
    simp [getOrCreateSession, hs]
  · intro hnone
    simp [getOrCreateSession, hnone, freshSession]

/-- Witness for C8 (amended) on a concrete store. -/
theorem c8_get_or_create_witness :
    getOrCreateSession [("u", freshSession "u")] "u" =
      (freshSession "u", [("u", freshSession "u")]) :=
  (c8_get_or_create [("u", freshSession "u")] "u").1 (freshSession "u") (by decide)

/-- C3: while a proposal is pending for the binary-gate field
`risicoafweging` and its candidate, stripped and lowercased, is `""`,
`"yes"` or `"ja"`, an accept token commits nothing: the conversation —
record and pending proposal included — is unchanged and the engine
re-prompts for the follow-up detail. (Accept tokens are never command
words, which the explicit `whichCommand` hypothesis records.) -/
theorem c3_gate_accept_guard (o : Oracle) (conv : Conv) (input : String) (p : Pending)
    (hconf : conv.confirmAction = none)
    (hcmd : whichCommand (pyLower (pyStrip input)) = none)
    (hp : conv.pending = some p)
    (hf : p.field = FieldKey.risicoafweging)
    (hc : candTriv p.candidate = true)
    (hacc : isAccept (pyStrip input) = true) :
    handleCollecting o conv input = (some conv, [Msg.needRiskDetail]) := by
  simp only [handleCollecting, hconf, hcmd, hp]
  simp [handlePending, hf, hc, hacc]

/-- Witness for C3: immediately after answering `yes` to the gate
question, sending `ok` re-prompts for the detail and changes nothing. -/
theorem c3_gate_accept_guard_witness :
    handleCollecting echoOracle
        { startConv with
            index := 3
            data := dataSet emptyTemplate FieldKey.risicoafweging "yes"
            pending := some ⟨FieldKey.risicoafweging, "yes", []⟩ } "ok" =
      (some { startConv with
          index := 3
          data := dataSet emptyTemplate FieldKey.risicoafweging "yes"
          pending := some ⟨FieldKey.risicoafweging, "yes", []⟩ },
        [Msg.needRiskDetail]) :=
  c3_gate_accept_guard echoOracle _ "ok" ⟨FieldKey.risicoafweging, "yes", []⟩
    rfl (by decide) rfl rfl (by decide) (by decide)

/-- C4: with no pending proposal and the current question not the binary
gate, answering in literal mode (persistent `literal` mode with no
prefix, or a one-shot `literal` prefix) commits the answer body verbatim
to the record, creates no pending proposal, and advances the cursor by
exactly one; with no prefix the committed body is exactly the (stripped)
input text. -/
theorem c4_literal_commit (o : Oracle) (conv : Conv) (input : String)
    (k : FieldKey) (forced : Option Mode) (body : String)
    (hconf : conv.confirmAction = none)
    (hcmd : whichCommand (pyLower (pyStrip input)) = none)
    (hpend : conv.pending = none)
    (hq : conv.questions[conv.index]? = some k)
    (hk : k ≠ FieldKey.risicoafweging)
    (hparse : parseModeTag (pyStrip input) = (forced, body))
    (hmode : forced = some Mode.literal ∨ (forced = none ∧ conv.mode = Mode.literal)) :
    (handleCollecting o conv input).1 =
      some { conv with data := dataSet conv.data k body, index := conv.index + 1 } ∧
    ({ conv with data := dataSet conv.data k body, index := conv.index + 1 } : Conv).pending
      = none ∧
    (forced = none → body = pyStrip input) := by
  have hbody : forced = none → body = pyStrip input := by
    intro hf
    subst hf
    have := hparse
    unfold parseModeTag at this
    by_cases h1 : pyStartsWith (pyLower (pyStrip (pyStrip input))) "story"
    · simp [h1] at this
    · by_cases h2 : pyStartsWith (pyLower (pyStrip (pyStrip input))) "literal"
      · simp [h1, h2] at this
      · simp [h1, h2] at this
        rw [← this, pyStrip_idem]
  have hmu : forced.getD conv.mode = Mode.literal := by
    rcases hmode with h | ⟨h1, h2⟩
    · simp [h]
    · simp [h1, h2]
  refine ⟨?_, by simpa using hpend, hbody⟩
  simp only [handleCollecting, hconf, hcmd, hpend]
  simp only [handleAnswer, hq, hparse, hmu]
  have : ¬(k = FieldKey.risicoafweging) := hk
  simp only [this, if_false]
  have hnot : ¬(Mode.literal = Mode.story) := by decide
  simp only [hnot, if_false]
  split <;> simp [hpend, hconf]

/-- Witness for C4: in literal mode, answering the first question with
`kwetsbaarheid in login` commits it verbatim and moves to question 2. -/
theorem c4_literal_commit_witness :
    (handleCollecting echoOracle { startConv with mode := Mode.literal }
        "kwetsbaarheid in login").1 =
      some { { startConv with mode := Mode.literal } with
          data := dataSet emptyTemplate FieldKey.beschrijving_afwijking
            "kwetsbaarheid in login"
          index := 1 } ∧
    ("kwetsbaarheid in login" : String) = pyStrip "kwetsbaarheid in login" := by
  have h := c4_literal_commit echoOracle { startConv with mode := Mode.literal }
    "kwetsbaarheid in login" FieldKey.beschrijving_afwijking none
    "kwetsbaarheid in login" rfl (by decide) rfl (by decide) (by decide)
    (by decide) (Or.inr ⟨rfl, rfl⟩)
  exact ⟨h.1, by decide⟩

/-- C1 counterexample: the cursor invariant fails after an `edit` that
fills the field at the cursor. From the freshly started conversation,
`edit 1. literal: x` writes the first field but leaves the cursor at 0,
while the first unanswered question is now index 1. -/
theorem c1_counterexample :
    ((handleCollecting echoOracle startConv "edit 1. literal: x").1.map
      (fun c => (c.index, computeNextIndex c.questions c.data 0))) = some (0, 1) := by
  decide

/-- C1 (amended): the cursor is recomputed to the first unanswered
position only by commits that go through the sequencer. Accepting a
pending proposal (no autofill queue) sets the cursor to the first
question index at or after its previous value whose record value is
unset or blank; a literal-mode answer advances the cursor by exactly one
(even when later fields are already filled, and even when the committed
body is blank); an `edit` never moves the cursor, including when it
fills the field at the cursor. -/
theorem c1_cursor_discipline (o : Oracle) (conv : Conv) (input : String)
    (hconf : conv.confirmAction = none) :
    (∀ p, conv.pending = some p →
      whichCommand (pyLower (pyStrip input)) = none →
      ¬(p.field = FieldKey.risicoafweging ∧ candTriv p.candidate = true) →
      isAccept (pyStrip input) = true →
      conv.autofillQueue = [] →
      ∃ c1, (handleCollecting o conv input).1 = some c1 ∧
        c1.data = dataSet conv.data p.field p.candidate ∧
        c1.pending = none ∧
        IsFirstUnansweredFrom conv.questions c1.data conv.index c1.index) ∧
    (∀ k forced body, conv.pending = none →
      whichCommand (pyLower (pyStrip input)) = none →
      conv.questions[conv.index]? = some k →
      k ≠ FieldKey.risicoafweging →
      parseModeTag (pyStrip input) = (forced, body) →
      (forced = some Mode.literal ∨ (forced = none ∧ conv.mode = Mode.literal)) →
      ∃ c1, (handleCollecting o conv input).1 = some c1 ∧ c1.index = conv.index + 1) ∧
    (whichCommand (pyLower (pyStrip input)) = some Cmd.edit →
      ∃ c1, (handleCollecting o conv input).1 = some c1 ∧ c1.index = conv.index) := by
  refine ⟨?_, ?_, ?_⟩
  · intro p hp hcmd hng hacc hq
    simp only [handleCollecting, hconf, hcmd, hp]
    simp only [handlePending]
    have hif : ¬(p.field = FieldKey.risicoafweging ∧ candTriv p.candidate = true ∧
        isAccept (pyStrip input) = true) := by
      rintro ⟨h1, h2, _⟩
      exact hng ⟨h1, h2⟩
    rw [if_neg hif, if_pos hacc]
    simp only [commitAndAdvance, hq, List.filter_nil]
    split
    · exact ⟨_, rfl, rfl, rfl, computeNextIndex_spec conv.questions _ conv.index⟩
    · exact ⟨_, rfl, rfl, rfl, computeNextIndex_spec conv.questions _ conv.index⟩
  · intro k forced body hpend hcmd hq hk hparse hmode
    have hmu : forced.getD conv.mode = Mode.literal := by
      rcases hmode with h | ⟨h1, h2⟩
      · simp [h]
      · simp [h1, h2]
    simp only [handleCollecting, hconf, hcmd, hpend]
    simp only [handleAnswer, hq, hparse, hmu]
    have hknot : ¬(k = FieldKey.risicoafweging) := hk
    have hnot : ¬(Mode.literal = Mode.story) := by decide
    simp only [hknot, if_false, hnot]
    split <;> exact ⟨_, rfl, rfl⟩
  · intro hcmd
    simp only [handleCollecting, hconf, hcmd]
    simp only [runCommand, editRun]
    repeat' split
    all_goals exact ⟨_, rfl, rfl⟩

/-- Witness for C1 (amended): accepting the pending proposal for the
first field moves the cursor to the first unanswered index (1). -/
theorem c1_cursor_discipline_witness :
    ∃ c1, (handleCollecting echoOracle
        { startConv with
            pending := some ⟨FieldKey.beschrijving_afwijking, "draft", []⟩ } "ok").1 =
      some c1 ∧
      c1.data = dataSet emptyTemplate FieldKey.beschrijving_afwijking "draft" ∧
      c1.pending = none ∧
      IsFirstUnansweredFrom questionsCatalog c1.data 0 c1.index := by
  have h := (c1_cursor_discipline echoOracle
    { startConv with pending := some ⟨FieldKey.beschrijving_afwijking, "draft", []⟩ }
    "ok" rfl).1 ⟨FieldKey.beschrijving_afwijking, "draft", []⟩ rfl (by decide)
    (by decide) (by decide) rfl
  exact h

/-- C2: behaviour of the binary-gate question `risicoafweging` (for
non-command messages, per the handler's precedence). With no proposal
pending: a yes token commits `"yes"`, leaves the cursor unchanged and
installs a pending proposal for the same field with candidate `"yes"`;
a no token commits `"no"` and advances the cursor to the next unanswered
question; anything else re-prompts for yes/no and changes nothing. While
the gate's trivial proposal is pending, the next non-accept message is
taken as the follow-up detail: the candidate becomes `"yes: <detail>"`
(detail drafted in story mode, verbatim in literal mode), awaiting
confirmation, and the record is not touched. The yes/no tests are on the
parsed answer body, normalized the way the handler normalizes it. -/
theorem c2_binary_gate (o : Oracle) (conv : Conv) (input : String)
    (forced : Option Mode) (body : String)
    (hconf : conv.confirmAction = none)
    (hcmd : whichCommand (pyLower (pyStrip input)) = none)
    (hparse : parseModeTag (pyStrip input) = (forced, body)) :
    (conv.pending = none →
      conv.questions[conv.index]? = some FieldKey.risicoafweging →
      ((isYes (pyLower (pyStrip body)) = true →
        handleCollecting o conv input =
          (some { conv with
              data := dataSet conv.data FieldKey.risicoafweging "yes"
              pending := some ⟨FieldKey.risicoafweging, "yes", []⟩ },
           [Msg.riskFollowup])) ∧
       (isYes (pyLower (pyStrip body)) = false →
        isNo (pyLower (pyStrip body)) = true →
        ∃ c1, (handleCollecting o conv input).1 = some c1 ∧
          c1.data = dataSet conv.data FieldKey.risicoafweging "no" ∧
          c1.pending = none ∧
          IsFirstUnansweredFrom conv.questions c1.data (conv.index + 1) c1.index) ∧
       (isYes (pyLower (pyStrip body)) = false →
        isNo (pyLower (pyStrip body)) = false →
        handleCollecting o conv input = (some conv, [Msg.riskYesNoPrompt])))) ∧
    (∀ p, conv.pending = some p → p.field = FieldKey.risicoafweging →
      candTriv p.candidate = true → isAccept (pyStrip input) = false →
      handleCollecting o conv input =
        (some (setPendingWithHistory conv p.field (pyStrip input)
          ("yes: " ++ (if forced.getD conv.mode = Mode.story
            then pyRewrite o body p.field else body))),
         [Msg.proposalMsg p.field
           ("yes: " ++ (if forced.getD conv.mode = Mode.story
             then pyRewrite o body p.field else body))])) := by
  constructor
  · intro hpend hq
    refine ⟨?_, ?_, ?_⟩
    · intro hyes
      simp only [handleCollecting, hconf, hcmd, hpend]
      simp only [handleAnswer, hq, hparse]
      simp [hyes, hconf]
    · intro hyes hno
      simp only [handleCollecting, hconf, hcmd, hpend]
      simp only [handleAnswer, hq, hparse]
      simp only [hyes, hno, Bool.false_eq_true, if_false, if_true]
      split
      · exact ⟨_, rfl, rfl, hpend, computeNextIndex_spec conv.questions _ (conv.index + 1)⟩
      · exact ⟨_, rfl, rfl, hpend, computeNextIndex_spec conv.questions _ (conv.index + 1)⟩
    · intro hyes hno
      simp only [handleCollecting, hconf, hcmd, hpend]
      simp only [handleAnswer, hq, hparse]
      simp [hyes, hno]
  · intro p hp hf hc hnacc
    simp only [handleCollecting, hconf, hcmd, hp]
    simp only [handlePending]
    rw [if_neg (by rintro ⟨_, _, h⟩; simp [hnacc] at h),
      if_neg (by simp [hnacc]), if_pos ⟨hf, hc⟩]
    simp only [hparse]

/-- Witness for C2: at the gate question, `yes` commits `"yes"`, keeps
the cursor, and installs the trivial pending proposal. -/
theorem c2_binary_gate_witness :
    handleCollecting echoOracle { startConv with index := 3 } "yes" =
      (some { { startConv with index := 3 } with
          data := dataSet emptyTemplate FieldKey.risicoafweging "yes"
          pending := some ⟨FieldKey.risicoafweging, "yes", []⟩ },
       [Msg.riskFollowup]) := by
  have h := (c2_binary_gate echoOracle { startConv with index := 3 } "yes" none "yes"
    rfl (by decide) (by decide)).1 rfl (by decide)
  exact h.1 (by decide)

/-- The conversation after a story-mode answer to the first question:
a pending proposal exists for `beschrijving_afwijking`. -/
def c5Conv : Conv :=
  (handleCollecting echoOracle startConv "hello").1.getD startConv

/-- C5 counterexample: the claim that the record field is subsequently
mutated only by an explicit accept token fails. After the story-mode
answer `hello` installs a pending proposal (record untouched), the reply
`new literal: bye` — not an accept token — commits `"bye"` to the record
without any confirmation. -/
theorem c5_counterexample :
    dataGet c5Conv.data FieldKey.beschrijving_afwijking = none ∧
    (c5Conv.pending.map Pending.field) = some FieldKey.beschrijving_afwijking ∧
    isAccept "new literal: bye" = false ∧
    dataGet ((handleCollecting echoOracle c5Conv "new literal: bye").1.getD
      startConv).data FieldKey.beschrijving_afwijking = some "bye" := by
  refine ⟨by decide, by decide, by decide, by decide⟩

/-- C5 (amended): answering a non-gate question in story mode never
mutates the record (only a pending proposal is installed); and while a
proposal is pending, any non-command message that is neither an accept
token nor a `new …` reply (i.e. a revision instruction or the gate's
follow-up detail) also leaves the record unchanged. The record is
mutated only by an accept, by a `new` reply resolving to literal mode,
or by a literal `edit` command. -/
theorem c5_story_frame (o : Oracle) (conv : Conv) (input : String)
    (hconf : conv.confirmAction = none)
    (hcmd : whichCommand (pyLower (pyStrip input)) = none) :
    (∀ k forced body, conv.pending = none →
      conv.questions[conv.index]? = some k →
      k ≠ FieldKey.risicoafweging →
      parseModeTag (pyStrip input) = (forced, body) →
      (forced = some Mode.story ∨ (forced = none ∧ conv.mode = Mode.story)) →
      (handleCollecting o conv input).1 =
        some (setPendingWithHistory conv k body (pyRewrite o body k)) ∧
      (setPendingWithHistory conv k body (pyRewrite o body k)).data = conv.data) ∧
    (∀ p, conv.pending = some p →
      isAccept (pyStrip input) = false →
      pyStartsWith (pyLower (pyStrip (pyLower (pyStrip input)))) "new " = false →
      pyLower (pyStrip (pyLower (pyStrip input))) ≠ "new" →
      ∃ c1, (handleCollecting o conv input).1 = some c1 ∧ c1.data = conv.data) := by
  constructor
  · intro k forced body hpend hq hk hparse hmode
    have hmu : forced.getD conv.mode = Mode.story := by
      rcases hmode with h | ⟨h1, h2⟩
      · simp [h]
      · simp [h1, h2]
    simp only [handleCollecting, hconf, hcmd, hpend]
    simp only [handleAnswer, hq, hparse, hmu]
    rw [if_neg hk]
    exact ⟨by simp, rfl⟩
  · intro p hp hnacc hnew1 hnew2
    simp only [handleCollecting, hconf, hcmd, hp]
    simp only [handlePending]
    rw [if_neg (by rintro ⟨_, _, h⟩; simp [hnacc] at h), if_neg (by simp [hnacc])]
    split
    · exact ⟨_, rfl, rfl⟩
    · rw [if_neg (by
        rintro (h | h)
        · simp [hnew1] at h
        · exact hnew2 h)]
      exact ⟨_, rfl, rfl⟩

/-- Witness for C5 (amended): answering `hello` in story mode installs a
proposal and leaves the empty record empty. -/
theorem c5_story_frame_witness :
    (handleCollecting echoOracle startConv "hello").1 =
      some (setPendingWithHistory startConv FieldKey.beschrijving_afwijking "hello"
        (pyRewrite echoOracle "hello" FieldKey.beschrijving_afwijking)) ∧
    (setPendingWithHistory startConv FieldKey.beschrijving_afwijking "hello"
      (pyRewrite echoOracle "hello" FieldKey.beschrijving_afwijking)).data =
      startConv.data :=
  (c5_story_frame echoOracle startConv "hello" rfl (by decide)).1
    FieldKey.beschrijving_afwijking none "hello" rfl (by decide) (by decide)
    (by decide) (Or.inr ⟨rfl, rfl⟩)

/-- The message the handler posts when a confirmed risky action is
re-executed: the final document for `finalize`, the Jira call for
`jira`/export. -/
def riskyExecMsg : RiskyAct → IncidentTemplate → Msg
  | .finalize, t => Msg.finalDocument (render_markdown t)
  | .jira, _ => Msg.jiraAttempted

/-- A conversation driven to cursor 13 of 13 in literal mode while the
first field was committed blank (the empty answer advances the cursor),
followed by real answers and a `no` at the gate. -/
def c6TraceConv : Conv :=
  (runMsgs echoOracle startConv
    ["mode literal", "", "b", "c", "no", "e", "f", "g", "h", "i", "j", "k", "m", "p"]).getD
    startConv

set_option maxRecDepth 4000 in
/-- C6 counterexample: the claim that `finalize` issued "while any field
is unanswered" always triggers the yes/no confirmation gate fails. The
incompleteness test is `index < len(questions)`, not "some field is
unanswered": after every question was passed in literal mode with the
first answer blank, the first field is unanswered (blank), no proposal
is pending and no override is set, yet `finalize` renders the document
immediately — `confirm_action` stays unset and no warning is posted. -/
theorem c6_counterexample :
    answeredAt c6TraceConv.data FieldKey.beschrijving_afwijking = false ∧
    c6TraceConv.pending = none ∧
    c6TraceConv.overrideIncomplete = false ∧
    c6TraceConv.index = 13 ∧
    c6TraceConv.questions.length = 13 ∧
    (handleCollecting echoOracle c6TraceConv "finalize") =
      (some c6TraceConv, [Msg.finalDocument (render_markdown c6TraceConv.data)]) := by
  refine ⟨by decide, by decide, by decide, by decide, by decide, by decide⟩

/-- C6 (amended): `finalize` and the export command `jira` are gated on
"a proposal is pending or the cursor has not passed the last question"
(not on fields being unanswered). When that holds and no one-shot
override is set, the engine sets `confirm_action` and warns instead of
acting; an accept token then clears `confirm_action`, sets the one-shot
override and re-executes the action with record, pending proposal and
cursor unchanged. A decline token clears `confirm_action` but the
handler then raises `AttributeError` evaluating `MSG.next_step_text`
(undefined in messages.py), so no message is posted; any other input
leaves the conversation — `confirm_action` included — unchanged and
likewise raises instead of posting the yes/no re-prompt. -/
theorem c6_confirm_gate (o : Oracle) (conv : Conv) (input : String) (act : RiskyAct) :
    (conv.confirmAction = none →
      whichCommand (pyLower (pyStrip input)) = some (cmdOfAct act) →
      (conv.pending.isSome = true ∨ conv.index < conv.questions.length) →
      conv.overrideIncomplete = false →
      handleCollecting o conv input =
        (some { conv with confirmAction := some act }, [Msg.warningIncomplete act])) ∧
    (conv.confirmAction = some act →
      isAccept (pyStrip input) = true →
      ∃ c1, handleCollecting o conv input = (some c1, [riskyExecMsg act conv.data]) ∧
        c1.confirmAction = none ∧ c1.data = conv.data ∧ c1.pending = conv.pending ∧
        c1.index = conv.index) ∧
    (conv.confirmAction = some act →
      isAccept (pyStrip input) = false → isNo (pyStrip input) = true →
      handleCollecting o conv input =
        (some { conv with confirmAction := none }, [Msg.attributeErrorNextStep])) ∧
    (conv.confirmAction = some act →
      isAccept (pyStrip input) = false → isNo (pyStrip input) = false →
      handleCollecting o conv input = (some conv, [Msg.attributeErrorNextStep])) := by
  refine ⟨?_, ?_, ?_, ?_⟩
  · intro hconf hcmd hinc hov
    simp only [handleCollecting, hconf, hcmd]
    cases act
    · simp only [cmdOfAct, runCommand, finalizeRun]
      rw [if_pos ⟨hinc, by simp [hov]⟩]
    · simp only [cmdOfAct, runCommand, jiraRun]
      rw [if_pos ⟨hinc, by simp [hov]⟩]
  · intro hconf hacc
    simp only [handleCollecting, hconf]
    rw [if_pos hacc]
    cases act
    · simp only [cmdOfAct, runCommand, finalizeRun]
      rw [if_neg (by simp)]
      by_cases hinc : (({ conv with confirmAction := none, overrideIncomplete := true } :
          Conv).pending.isSome = true ∨
          ({ conv with confirmAction := none, overrideIncomplete := true } : Conv).index <
            ({ conv with confirmAction := none, overrideIncomplete := true } :
              Conv).questions.length)
      · rw [if_pos hinc]
        exact ⟨_, rfl, rfl, rfl, rfl, rfl⟩
      · rw [if_neg hinc]
        exact ⟨_, rfl, rfl, rfl, rfl, rfl⟩
    · simp only [cmdOfAct, runCommand, jiraRun]
      rw [if_neg (by simp)]
      by_cases hinc : (({ conv with confirmAction := none, overrideIncomplete := true } :
          Conv).pending.isSome = true ∨
          ({ conv with confirmAction := none, overrideIncomplete := true } : Conv).index <
            ({ conv with confirmAction := none, overrideIncomplete := true } :
              Conv).questions.length)
      · rw [if_pos hinc]
        exact ⟨_, rfl, rfl, rfl, rfl, rfl⟩
      · rw [if_neg hinc]
        exact ⟨_, rfl, rfl, rfl, rfl, rfl⟩
  · intro hconf hnacc hno
    simp only [handleCollecting, hconf]
    rw [if_neg (by simp [hnacc]), if_pos hno]
  · intro hconf hnacc hnno
    simp only [handleCollecting, hconf]
    rw [if_neg (by simp [hnacc]), if_neg (by simp [hnno])]

/-- Witness for C6 (amended): `finalize` on a fresh conversation (cursor
0 of 13) warns and sets `confirm_action`. -/
theorem c6_confirm_gate_witness :
    handleCollecting echoOracle startConv "finalize" =
      (some { startConv with confirmAction := some RiskyAct.finalize },
       [Msg.warningIncomplete RiskyAct.finalize]) :=
  (c6_confirm_gate echoOracle startConv "finalize" RiskyAct.finalize).1
    rfl (by decide) (Or.inr (by decide)) rfl

/-- The conversation after a story-mode answer installed a pending
proposal for the first field (used by the C7 counterexample). -/
def c7Conv : Conv :=
  (handleCollecting echoOracle startConv "first draft").1.getD startConv

/-- C7 counterexample: the claim that every named command other than
`cancel` never discards or replaces an existing pending proposal fails
for `edit`: with a proposal pending for the first field, the story-mode
command `edit 2.1 extra measures` replaces it with a proposal for the
edited field. -/
theorem c7_counterexample :
    (c7Conv.pending.map Pending.field) = some FieldKey.beschrijving_afwijking ∧
    whichCommand (pyLower (pyStrip "edit 2.1 extra measures")) = some Cmd.edit ∧
    (((handleCollecting echoOracle c7Conv "edit 2.1 extra measures").1.getD
        startConv).pending.map Pending.field) =
      some FieldKey.maatregelen_beheersen_corrigeren := by
  refine ⟨by decide, by decide, by decide⟩

/-- C7 (amended): every named command other than `cancel` handled in the
collecting state leaves the cursor unchanged, and every such command
other than `edit` also leaves the pending proposal untouched (a
story-mode `edit` replaces it with a proposal for the edited field). -/
theorem c7_commands_frame (o : Oracle) (conv : Conv) (input : String) (c : Cmd)
    (hconf : conv.confirmAction = none)
    (hcmd : whichCommand (pyLower (pyStrip input)) = some c)
    (hc : c ≠ Cmd.cancel) :
    ∃ c1, (handleCollecting o conv input).1 = some c1 ∧
      c1.index = conv.index ∧
      (c ≠ Cmd.edit → c1.pending = conv.pending) := by
  simp only [handleCollecting, hconf, hcmd]
  cases c with
  | cancel => exact absurd rfl hc
  | help => exact ⟨_, rfl, rfl, fun _ => rfl⟩
  | finalizeCmd =>
    simp only [runCommand, finalizeRun]
    split
    · exact ⟨_, rfl, rfl, fun _ => rfl⟩
    · split <;> exact ⟨_, rfl, rfl, fun _ => rfl⟩
  | jiraCmd =>
    simp only [runCommand, jiraRun]
    split
    · exact ⟨_, rfl, rfl, fun _ => rfl⟩
    · split <;> exact ⟨_, rfl, rfl, fun _ => rfl⟩
  | statusCmd => exact ⟨_, rfl, rfl, fun _ => rfl⟩
  | fieldsCmd => exact ⟨_, rfl, rfl, fun _ => rfl⟩
  | showCmd => exact ⟨_, rfl, rfl, fun _ => rfl⟩
  | continueCmd => exact ⟨_, rfl, rfl, fun _ => rfl⟩
  | modeCmd =>
    simp only [runCommand, modeRun]
    repeat' split
    all_goals exact ⟨_, rfl, rfl, fun _ => rfl⟩
  | showmode => exact ⟨_, rfl, rfl, fun _ => rfl⟩
  | edit =>
    simp only [runCommand, editRun]
    repeat' split
    all_goals exact ⟨_, rfl, rfl, fun h => absurd rfl h⟩

/-- Witness for C7 (amended): the `status` command changes neither
cursor nor pending proposal. -/
theorem c7_commands_frame_witness :
    ∃ c1, (handleCollecting echoOracle startConv "status").1 = some c1 ∧
      c1.index = startConv.index ∧
      (Cmd.statusCmd ≠ Cmd.edit → c1.pending = startConv.pending) :=
  c7_commands_frame echoOracle startConv "status" Cmd.statusCmd rfl (by decide)
    (by decide)

end IncidentBot
